import Mathlib

/-!
# soltis-backend: customers and addresses over HTTP

A shallow embedding of `main.go`.  The five handlers are functions from the
database state (the two tables created in `main`) and the request to the
handler's outcome and the database state afterwards.

What lies outside `main.go` and is modelled here:

* the PostgreSQL store: a table is the list of its rows, in insertion order;
  `INSERT` appends a row or fails on a constraint of the `CREATE TABLE`
  statements (lines 43 and 49); columns without `NOT NULL` or `PRIMARY KEY`
  may hold `NULL`;
* `database/sql`: `Scan` of a `NULL` into a Go `string` is an error;
  `QueryRow(...).Scan` on an empty result is `sql.ErrNoRows`;
* `encoding/json`: a member absent from the body leaves the struct field at
  its zero value; a `nil` slice is encoded as `null`, a non-nil one as an array;
* `uuid.New()`: the generated value is an argument of the handler;
* `log.Fatal`: the process exits and the handler writes nothing.

The connection to the store is taken to work: the only errors of a statement
are the ones its text and the schema give rise to.
-/

namespace Soltis

/-! ## Data model -/

/-- A `uuid.UUID`: sixteen bytes, here the number they spell. -/
structure UUID where
  val : Nat
  deriving DecidableEq, Repr

/-- The zero value of `uuid.UUID` (`uuid.Nil`). -/
def UUID.zero : UUID := ⟨0⟩

/-- Go struct `Customer` (lines 16-21). -/
structure Customer where
  ID : UUID
  Fname : String
  Lname : String
  Email : String
  deriving DecidableEq, Repr

/-- Go struct `Address` (lines 23-32). -/
structure Address where
  ID : UUID
  Customer_id : UUID
  Nickname : String
  Street1 : String
  Street2 : String
  City : String
  State : String
  Zipcode : String
  deriving DecidableEq, Repr

/-- A row of table `customers` (line 43):
`id UUID PRIMARY KEY, fname VARCHAR NOT NULL, lname VARCHAR, email VARCHAR UNIQUE`.
`none` is SQL `NULL`. -/
structure CustomerRow where
  id : UUID
  fname : String
  lname : Option String
  email : Option String
  deriving DecidableEq, Repr

/-- A row of table `addresses` (line 49):
`id UUID PRIMARY KEY, customer_id UUID REFERENCES customers(id), nickname VARCHAR,
street1 VARCHAR UNIQUE, street2 VARCHAR, city VARCHAR, state VARCHAR, zipcode VARCHAR`. -/
structure AddressRow where
  id : UUID
  customer_id : Option UUID
  nickname : Option String
  street1 : Option String
  street2 : Option String
  city : Option String
  state : Option String
  zipcode : Option String
  deriving DecidableEq, Repr

/-- The database: the two tables, each the list of its rows in insertion order. -/
structure DB where
  customers : List CustomerRow
  addresses : List AddressRow
  deriving DecidableEq, Repr

/-- The errors a handler can meet; every one of them reaches `log.Fatal`. -/
inductive Failure where
  | badJSON              -- json.Decoder.Decode failed
  | invalidUUIDText      -- the text bound to a uuid parameter is not a uuid
  | noRows               -- sql.ErrNoRows
  | nullIntoString       -- Scan: converting NULL to string is unsupported
  | duplicateKey         -- primary key or unique constraint violated
  | foreignKey           -- foreign key constraint violated
  deriving DecidableEq, Repr

/-- A path variable of the route (a Go `string`), as the store reads it when it is
bound to a `uuid` parameter: the uuid it spells, or text that spells none. -/
inductive PathParam where
  | uuid (u : UUID)
  | malformed (text : String)
  deriving DecidableEq, Repr

/-- The members of a JSON object sent as body of `POST /customers` that
`Customer`'s tags name; `none` is an absent member. -/
structure CustomerFields where
  id : Option UUID
  fname : Option String
  lname : Option String
  email : Option String
  deriving DecidableEq, Repr

/-- The members of a JSON object sent as body of
`POST /customer/{customer_id}/addresses` that `Address`'s tags name. -/
structure AddressFields where
  id : Option UUID
  customer_id : Option UUID
  nickname : Option String
  street1 : Option String
  street2 : Option String
  city : Option String
  state : Option String
  zipcode : Option String
  deriving DecidableEq, Repr

/-- A request body: a JSON object that decodes into the struct, or anything else. -/
inductive Body (α : Type) where
  | malformed
  | object (fields : α)
  deriving DecidableEq, Repr

/-- A member value of the JSON objects written: a string, or a uuid in its text form. -/
inductive JsonValue where
  | str (s : String)
  | uuid (u : UUID)
  deriving DecidableEq, Repr

/-- A JSON object: its members in the order written. -/
abbrev JsonObject := List (String × JsonValue)

/-- A JSON document a handler writes. -/
inductive JsonDoc where
  | null
  | object (o : JsonObject)
  | array (items : List JsonObject)
  deriving DecidableEq, Repr

/-- A Go slice: `nil`, or a non-nil slice with its elements. -/
inductive Slice (α : Type) where
  | nil
  | elems (xs : List α)
  deriving DecidableEq, Repr

/-- Go `append(s, x)`. -/
def Slice.append {α : Type} : Slice α → α → Slice α
  | .nil, x => .elems [x]
  | .elems xs, x => .elems (xs ++ [x])

/-- What a handler does with a request: it writes a response (status and JSON
document), or `log.Fatal` ends the process before anything is written. -/
inductive Outcome where
  | written (status : Nat) (doc : JsonDoc)
  | fatal (err : Failure)
  deriving DecidableEq, Repr

/-! ## JSON encoding and decoding -/

/-- The encoding `json.Encoder.Encode` gives a `Customer`. -/
def encodeCustomer (c : Customer) : JsonObject :=
  [("id", .uuid c.ID), ("fname", .str c.Fname), ("lname", .str c.Lname), ("email", .str c.Email)]

/-- The encoding `json.Encoder.Encode` gives an `Address`. -/
def encodeAddress (a : Address) : JsonObject :=
  [("id", .uuid a.ID), ("customer_id", .uuid a.Customer_id), ("nickname", .str a.Nickname),
   ("street1", .str a.Street1), ("street2", .str a.Street2), ("city", .str a.City),
   ("state", .str a.State), ("zipcode", .str a.Zipcode)]

/-- The encoding of a slice of structs: `null` for the `nil` slice, an array otherwise. -/
def encodeSlice {α : Type} (enc : α → JsonObject) : Slice α → JsonDoc
  | .nil => .null
  | .elems xs => .array (xs.map enc)

/-- Lines 125-126: `var customer Customer; json.NewDecoder(r.Body).Decode(&customer)`. -/
def decodeCustomer : Body CustomerFields → Except Failure Customer
  | .malformed => .error .badJSON
  | .object f =>
    .ok { ID := f.id.getD UUID.zero, Fname := f.fname.getD "", Lname := f.lname.getD "",
          Email := f.email.getD "" }

/-- Lines 175-176: `var address Address; json.NewDecoder(r.Body).Decode(&address)`. -/
def decodeAddress : Body AddressFields → Except Failure Address
  | .malformed => .error .badJSON
  | .object f =>
    .ok { ID := f.id.getD UUID.zero, Customer_id := f.customer_id.getD UUID.zero,
          Nickname := f.nickname.getD "", Street1 := f.street1.getD "",
          Street2 := f.street2.getD "", City := f.city.getD "", State := f.state.getD "",
          Zipcode := f.zipcode.getD "" }

/-! ## The store -/

/-- Lines 90 and 111: `Scan(&customer.ID, &customer.Fname, &customer.Lname, &customer.Email)`. -/
def scanCustomer (r : CustomerRow) : Except Failure Customer :=
  match r.lname, r.email with
  | some l, some e => .ok { ID := r.id, Fname := r.fname, Lname := l, Email := e }
  | _, _ => .error .nullIntoString

/-- Line 154: `Scan` of the eight columns of a row selected by `customer_id = $1`
(whose `customer_id` is therefore not `NULL`; a `NULL` would leave the field zero). -/
def scanAddress (r : AddressRow) : Except Failure Address :=
  match r.nickname, r.street1, r.street2, r.city, r.state, r.zipcode with
  | some n, some s1, some s2, some c, some st, some z =>
    .ok { ID := r.id, Customer_id := r.customer_id.getD UUID.zero, Nickname := n,
          Street1 := s1, Street2 := s2, City := c, State := st, Zipcode := z }
  | _, _, _, _, _, _ => .error .nullIntoString

/-- The loop `for rows.Next() { Scan; append }` of lines 88-95 and 152-159. -/
def scanRows {ρ α : Type} (scan : ρ → Except Failure α) : List ρ → Slice α → Except Failure (Slice α)
  | [], acc => .ok acc
  | r :: rs, acc =>
    match scan r with
    | .error e => .error e
    | .ok x => scanRows scan rs (acc.append x)

/-- Line 131: `INSERT INTO customers (id, fname, lname, email) VALUES ($1, $2, $3, $4)`. -/
def insertCustomer (db : DB) (id : UUID) (fname lname email : String) : Except Failure DB :=
  if db.customers.any (fun r => r.id == id) then .error .duplicateKey
  else if db.customers.any (fun r => r.email == some email) then .error .duplicateKey
  else .ok { db with customers := db.customers ++ [⟨id, fname, some lname, some email⟩] }

/-- Line 181: `INSERT INTO addresses (id, customer_id, nickname, street1, street2, city,
state, zipcode) VALUES ($1, ..., $8)`. -/
def insertAddress (db : DB) (id : UUID) (customer_id : PathParam)
    (nickname street1 street2 city state zipcode : String) : Except Failure DB :=
  match customer_id with
  | .malformed _ => .error .invalidUUIDText
  | .uuid cid =>
    if db.addresses.any (fun r => r.id == id) then .error .duplicateKey
    else if !db.customers.any (fun r => r.id == cid) then .error .foreignKey
    else if db.addresses.any (fun r => r.street1 == some street1) then .error .duplicateKey
    else .ok { db with addresses := db.addresses ++
      [⟨id, some cid, some nickname, some street1, some street2, some city, some state,
        some zipcode⟩] }

/-! ## The handlers -/

/-- Lines 79-103. -/
def getCustomers (db : DB) : Outcome × DB :=
  match scanRows scanCustomer db.customers Slice.nil with
  | .error e => (.fatal e, db)
  | .ok customers => (.written 200 (encodeSlice encodeCustomer customers), db)

/-- Lines 106-118. -/
def getCustomerByID (db : DB) (id : PathParam) : Outcome × DB :=
  match id with
  | .malformed _ => (.fatal .invalidUUIDText, db)
  | .uuid u =>
    match db.customers.find? (fun r => r.id == u) with
    | none => (.fatal .noRows, db)
    | some r =>
      match scanCustomer r with
      | .error e => (.fatal e, db)
      | .ok customer => (.written 200 (.object (encodeCustomer customer)), db)

/-- Lines 121-138; `myUUID` is the value of `uuid.New()`. -/
def createCustomer (db : DB) (myUUID : UUID) (body : Body CustomerFields) : Outcome × DB :=
  match decodeCustomer body with
  | .error e => (.fatal e, db)
  | .ok customer =>
    match insertCustomer db myUUID customer.Fname customer.Lname customer.Email with
    | .error e => (.fatal e, db)
    | .ok db1 => (.written 200 (.object (encodeCustomer customer)), db1)

/-- Lines 141-167. -/
def getAddresses (db : DB) (customer_id : PathParam) : Outcome × DB :=
  match customer_id with
  | .malformed _ => (.fatal .invalidUUIDText, db)
  | .uuid cid =>
    match scanRows scanAddress (db.addresses.filter (fun r => r.customer_id == some cid))
        Slice.nil with
    | .error e => (.fatal e, db)
    | .ok addresses => (.written 200 (encodeSlice encodeAddress addresses), db)

/-- Lines 170-188; `myUUID` is the value of `uuid.New()`. -/
def createAddress (db : DB) (customer_id : PathParam) (myUUID : UUID)
    (body : Body AddressFields) : Outcome × DB :=
  match decodeAddress body with
  | .error e => (.fatal e, db)
  | .ok address =>
    match insertAddress db myUUID customer_id address.Nickname address.Street1 address.Street2
        address.City address.State address.Zipcode with
    | .error e => (.fatal e, db)
    | .ok db1 => (.written 200 (.object (encodeAddress address)), db1)

/-- A run of `POST /customers` requests served one after the other, each with the uuid
generated for it; `none` when one of them ends the process instead of answering. -/
def createCustomers : DB → List (UUID × CustomerFields) → Option DB
  | db, [] => some db
  | db, (u, f) :: rest =>
    match createCustomer db u (.object f) with
    | (.written _ _, db1) => createCustomers db1 rest
    | (.fatal _, _) => none

/-- Whether the handler answered. -/
def Outcome.isWritten : Outcome → Bool
  | .written _ _ => true
  | .fatal _ => false

/-- The `Customer` read from a row whose `lname` and `email` are not `NULL`. -/
def customerOfRow (r : CustomerRow) : Customer :=
  ⟨r.id, r.fname, r.lname.getD "", r.email.getD ""⟩

/-- The row `createCustomer` inserts for a body with members `f` and generated uuid `u`. -/
def customerRowOf (u : UUID) (f : CustomerFields) : CustomerRow :=
  ⟨u, f.fname.getD "", some (f.lname.getD ""), some (f.email.getD "")⟩

/-- The row `createAddress` inserts for a body with members `f`, generated uuid `u` and
path customer `cid`. -/
def addressRowOf (u cid : UUID) (f : AddressFields) : AddressRow :=
  ⟨u, some cid, some (f.nickname.getD ""), some (f.street1.getD ""), some (f.street2.getD ""),
    some (f.city.getD ""), some (f.state.getD ""), some (f.zipcode.getD "")⟩

/-! ## Sample states and requests -/

/-- Both tables empty, as right after `main` has created them. -/
def emptyDB : DB := ⟨[], []⟩

/-- The body `{"fname":"Ada","lname":"Lovelace","email":"ada@example.com"}`. -/
def adaFields : CustomerFields := ⟨none, some "Ada", some "Lovelace", some "ada@example.com"⟩

/-- The store after Ada was created with generated uuid 7. -/
def adaDB : DB := ⟨[⟨⟨7⟩, "Ada", some "Lovelace", some "ada@example.com"⟩], []⟩

/-- The body `{"nickname":"home","street1":"12 St James Sq","street2":"","city":"London",
"state":"","zipcode":"SW1Y"}`. -/
def homeFields : AddressFields :=
  ⟨none, none, some "home", some "12 St James Sq", some "", some "London", some "", some "SW1Y"⟩

/-- The store after Ada's home address was created with generated uuid 21. -/
def adaHomeDB : DB :=
  ⟨[⟨⟨7⟩, "Ada", some "Lovelace", some "ada@example.com"⟩],
   [⟨⟨21⟩, some ⟨7⟩, some "home", some "12 St James Sq", some "", some "London", some "",
     some "SW1Y"⟩]⟩

/-- The body `{"id":"<uuid 1>","fname":"Grace","lname":"Hopper","email":"grace@example.com"}`,
which carries an `id` of the client's. -/
def graceFields : CustomerFields :=
  ⟨some ⟨1⟩, some "Grace", some "Hopper", some "grace@example.com"⟩

/-- The store after Ada (uuid 7) and then Grace (uuid 8) were created. -/
def adaGraceDB : DB :=
  ⟨[⟨⟨7⟩, "Ada", some "Lovelace", some "ada@example.com"⟩,
    ⟨⟨8⟩, "Grace", some "Hopper", some "grace@example.com"⟩], []⟩

/-- A store whose one customer has no last name and no email (both `NULL`), which the
schema of line 43 admits. -/
def anonDB : DB := ⟨[⟨⟨3⟩, "Anon", none, none⟩], []⟩

/-! ## What a successful creation looks like -/

/-- A successful `INSERT INTO customers` appends exactly the row of its arguments. -/
theorem insertCustomer_ok {db db1 : DB} {u : UUID} {fn ln em : String}
    (h : insertCustomer db u fn ln em = .ok db1) :
    db1 = { db with customers := db.customers ++ [⟨u, fn, some ln, some em⟩] } := by
  unfold insertCustomer at h
  split_ifs at h
  injection h with h
  exact h.symm

/-- A successful `INSERT INTO addresses` had a uuid as customer and appends exactly the row
of its arguments. -/
theorem insertAddress_ok {db db1 : DB} {u : UUID} {p : PathParam} {n s1 s2 c st z : String}
    (h : insertAddress db u p n s1 s2 c st z = .ok db1) :
    ∃ cid, p = .uuid cid ∧ db1 = { db with addresses := db.addresses ++
      [⟨u, some cid, some n, some s1, some s2, some c, some st, some z⟩] } := by
  unfold insertAddress at h
  cases p with
  | malformed t => simp at h
  | uuid cid =>
    simp only at h
    split_ifs at h
    injection h with h
    exact ⟨cid, rfl, h.symm⟩

/-- When `createCustomer` answers: the body was an object, the status is 200, the document
is the decoded body re-encoded, and one row under the generated uuid was appended. -/
theorem createCustomer_written {db db1 : DB} {u : UUID} {body : Body CustomerFields}
    {s : Nat} {d : JsonDoc} (h : createCustomer db u body = (.written s d, db1)) :
    ∃ f, body = .object f ∧ s = 200 ∧
      d = .object (encodeCustomer ⟨f.id.getD UUID.zero, f.fname.getD "", f.lname.getD "",
        f.email.getD ""⟩) ∧
      db1 = { db with customers := db.customers ++ [customerRowOf u f] } := by
  cases body with
  | malformed => simp [createCustomer, decodeCustomer] at h
  | object f =>
    simp only [createCustomer, decodeCustomer] at h
    split at h
    · simp at h
    · rename_i db2 hins
      simp only [Prod.mk.injEq, Outcome.written.injEq] at h
      obtain ⟨⟨hs, hd⟩, hdb⟩ := h
      refine ⟨f, rfl, hs.symm, hd.symm, ?_⟩
      rw [← hdb]
      exact insertCustomer_ok hins

/-- When `createAddress` answers: the body was an object, the path named a uuid, the status
is 200, the document is the decoded body re-encoded, and one row was appended. -/
theorem createAddress_written {db db1 : DB} {p : PathParam} {u : UUID}
    {body : Body AddressFields} {s : Nat} {d : JsonDoc}
    (h : createAddress db p u body = (.written s d, db1)) :
    ∃ f cid, body = .object f ∧ p = .uuid cid ∧ s = 200 ∧
      d = .object (encodeAddress ⟨f.id.getD UUID.zero, f.customer_id.getD UUID.zero,
        f.nickname.getD "", f.street1.getD "", f.street2.getD "", f.city.getD "",
        f.state.getD "", f.zipcode.getD ""⟩) ∧
      db1 = { db with addresses := db.addresses ++ [addressRowOf u cid f] } := by
  cases body with
  | malformed => simp [createAddress, decodeAddress] at h
  | object f =>
    simp only [createAddress, decodeAddress] at h
    split at h
    · simp at h
    · rename_i db2 hins
      simp only [Prod.mk.injEq, Outcome.written.injEq] at h
      obtain ⟨⟨hs, hd⟩, hdb⟩ := h
      obtain ⟨cid, hp, hdb2⟩ := insertAddress_ok hins
      refine ⟨f, cid, rfl, hp, hs.symm, hd.symm, ?_⟩
      rw [← hdb]
      exact hdb2

/-! ## The id written in a creation response -/

/-- C1, on the code: Ada is created in the empty store with generated uuid 7 and no `id`
in the body.  The response carries the zero uuid as `id`; fetching by that id finds no row
and ends in `log.Fatal`, while the row stored is the one under uuid 7: the round trip
through the returned id does not give the customer back. -/
theorem createCustomer_roundtrip_by_returned_id :
    createCustomer emptyDB ⟨7⟩ (.object adaFields) =
      (.written 200 (.object
        [("id", .uuid UUID.zero), ("fname", .str "Ada"), ("lname", .str "Lovelace"),
         ("email", .str "ada@example.com")]), adaDB) ∧
    getCustomerByID adaDB (.uuid UUID.zero) = (.fatal .noRows, adaDB) ∧
    getCustomerByID adaDB (.uuid ⟨7⟩) =
      (.written 200 (.object
        [("id", .uuid ⟨7⟩), ("fname", .str "Ada"), ("lname", .str "Lovelace"),
         ("email", .str "ada@example.com")]), adaDB) := by
  refine ⟨rfl, rfl, rfl⟩

/-- C2, on the code: with generated uuid 7, the `id` of the customer written in the
response is the zero uuid when the body has no `id`, and the client's 9 when the body
has `"id"` 9; in neither case is it 7. -/
theorem createCustomer_response_id :
    (createCustomer emptyDB ⟨7⟩ (.object adaFields)).1 =
      .written 200 (.object (encodeCustomer ⟨UUID.zero, "Ada", "Lovelace", "ada@example.com"⟩)) ∧
    (createCustomer emptyDB ⟨7⟩ (.object { adaFields with id := some ⟨9⟩ })).1 =
      .written 200 (.object (encodeCustomer ⟨⟨9⟩, "Ada", "Lovelace", "ada@example.com"⟩)) ∧
    UUID.zero ≠ (⟨7⟩ : UUID) ∧ (⟨9⟩ : UUID) ≠ ⟨7⟩ := by
  refine ⟨rfl, rfl, by decide, by decide⟩

/-- C3, on the code: an address is created under customer 7 with generated uuid 21.  The
address written in the response has the zero uuid as `id` and as `customer_id` when the body
has neither, and the body's 5 and 6 when it has them; the row stored has 21 and 7. -/
theorem createAddress_response_ids :
    createAddress adaDB (.uuid ⟨7⟩) ⟨21⟩ (.object homeFields) =
      (.written 200 (.object (encodeAddress
        ⟨UUID.zero, UUID.zero, "home", "12 St James Sq", "", "London", "", "SW1Y"⟩)),
       adaHomeDB) ∧
    createAddress adaDB (.uuid ⟨7⟩) ⟨21⟩
        (.object { homeFields with id := some ⟨5⟩, customer_id := some ⟨6⟩ }) =
      (.written 200 (.object (encodeAddress
        ⟨⟨5⟩, ⟨6⟩, "home", "12 St James Sq", "", "London", "", "SW1Y"⟩)),
       adaHomeDB) ∧
    adaHomeDB.addresses.map (fun r => (r.id, r.customer_id)) = [(⟨21⟩, some ⟨7⟩)] := by
  refine ⟨rfl, rfl, rfl⟩

/-! ## Empty results -/

/-- C4, on the code: with no customer stored `getCustomers` writes `null`, and for a
customer without addresses `getAddresses` writes `null`; both answer with status 200, and
`null` is not the empty array. -/
theorem empty_result_is_null :
    (∀ addresses, getCustomers ⟨[], addresses⟩ = (.written 200 .null, ⟨[], addresses⟩)) ∧
    getAddresses adaDB (.uuid ⟨7⟩) = (.written 200 .null, adaDB) ∧
    adaDB.addresses.filter (fun r => r.customer_id == some ⟨7⟩) = [] ∧
    JsonDoc.null ≠ JsonDoc.array [] := by
  refine ⟨fun _ => rfl, rfl, rfl, by decide⟩

/-! ## Failures end the process -/

/-- C5 as stated fails: no customer has id 1 in the empty store, and `getCustomerByID`
writes no response there at all. -/
theorem getCustomerByID_missing_no_response :
    (∀ r ∈ emptyDB.customers, PathParam.uuid ⟨1⟩ ≠ .uuid r.id) ∧
    ¬ ∃ s d, (getCustomerByID emptyDB (.uuid ⟨1⟩)).1 = .written s d := by
  refine ⟨by decide, ?_⟩
  rintro ⟨s, d, h⟩
  change Outcome.fatal _ = _ at h
  cases h

/-- C5, amended: for every database state and every id that matches no row of `customers`,
`getCustomerByID` writes no response: it ends the process through `log.Fatal` (on
`sql.ErrNoRows`, or on the store's refusal of text that is no uuid), and the database is
unchanged. -/
theorem getCustomerByID_missing_is_fatal (db : DB) (id : PathParam)
    (h : ∀ r ∈ db.customers, id ≠ .uuid r.id) :
    ∃ e, getCustomerByID db id = (.fatal e, db) ∧ (e = .noRows ∨ e = .invalidUUIDText) := by
  cases id with
  | malformed t => exact ⟨.invalidUUIDText, rfl, Or.inr rfl⟩
  | uuid u =>
    refine ⟨.noRows, ?_, Or.inl rfl⟩
    have hnone : db.customers.find? (fun r => r.id == u) = none := by
      rw [List.find?_eq_none]
      intro r hr hru
      have : r.id = u := by simpa using hru
      exact h r hr (by rw [this])
    simp only [getCustomerByID, hnone]

theorem getCustomerByID_missing_is_fatal_witness :
    (∀ r ∈ adaDB.customers, PathParam.uuid ⟨9⟩ ≠ .uuid r.id) ∧
    ∃ e, getCustomerByID adaDB (.uuid ⟨9⟩) = (.fatal e, adaDB) ∧
      (e = .noRows ∨ e = .invalidUUIDText) :=
  ⟨by decide, getCustomerByID_missing_is_fatal adaDB (.uuid ⟨9⟩) (by decide)⟩

/-- C6 as stated fails: Ada's email is stored, a second creation with that email writes no
response at all. -/
theorem createCustomer_duplicate_email_no_response :
    (∃ r ∈ adaDB.customers, r.email = some "ada@example.com") ∧
    adaFields.email = some "ada@example.com" ∧
    ¬ ∃ s d, (createCustomer adaDB ⟨8⟩ (.object adaFields)).1 = .written s d := by
  refine ⟨by decide, rfl, ?_⟩
  rintro ⟨s, d, h⟩
  change Outcome.fatal _ = _ at h
  cases h

/-- C6, amended: for every database state that already holds a customer with email `e`
and every well-formed `createCustomer` request whose email is `e`, the handler writes no
response: it ends the process through `log.Fatal` on the store's unique-constraint error,
and the database is unchanged, so no second row with email `e` is inserted. -/
theorem createCustomer_duplicate_email_is_fatal (db : DB) (u : UUID) (f : CustomerFields)
    (e : String) (hf : f.email = some e) (h : ∃ r ∈ db.customers, r.email = some e) :
    createCustomer db u (.object f) = (.fatal .duplicateKey, db) := by
  obtain ⟨r, hr, hre⟩ := h
  have hany : db.customers.any (fun r => r.email == some e) = true := by
    rw [List.any_eq_true]
    exact ⟨r, hr, by simp [hre]⟩
  simp only [createCustomer, decodeCustomer, insertCustomer, hf, Option.getD_some, hany]
  split_ifs <;> rfl

theorem createCustomer_duplicate_email_is_fatal_witness :
    createCustomer adaDB ⟨8⟩ (.object adaFields) = (.fatal .duplicateKey, adaDB) :=
  createCustomer_duplicate_email_is_fatal adaDB ⟨8⟩ adaFields "ada@example.com" rfl
    (by decide)

/-- C7 as stated fails: no customer has id 8, and creating an address under 8 writes no
response at all. -/
theorem createAddress_unknown_customer_no_response :
    (∀ r ∈ adaDB.customers, PathParam.uuid ⟨8⟩ ≠ .uuid r.id) ∧
    ¬ ∃ s d, (createAddress adaDB (.uuid ⟨8⟩) ⟨21⟩ (.object homeFields)).1 = .written s d := by
  refine ⟨by decide, ?_⟩
  rintro ⟨s, d, h⟩
  change Outcome.fatal _ = _ at h
  cases h

/-- C7, amended: for every database state and every path parameter `customer_id` that is
the id of no row of `customers`, `createAddress` with any well-formed body writes no
response: it ends the process through `log.Fatal` on the store's error, and the database is
unchanged, so no address row is inserted. -/
theorem createAddress_unknown_customer_is_fatal (db : DB) (customer_id : PathParam)
    (u : UUID) (f : AddressFields) (h : ∀ r ∈ db.customers, customer_id ≠ .uuid r.id) :
    ∃ e, createAddress db customer_id u (.object f) = (.fatal e, db) := by
  cases customer_id with
  | malformed t => exact ⟨.invalidUUIDText, rfl⟩
  | uuid cid =>
    have hany : db.customers.any (fun r => r.id == cid) = false := by
      rw [List.any_eq_false]
      intro r hr hrc
      have : r.id = cid := by simpa using hrc
      exact h r hr (by rw [this])
    simp only [createAddress, decodeAddress, insertAddress, hany]
    split_ifs with h1 h2 h3
    · exact ⟨_, rfl⟩
    · exact ⟨_, rfl⟩
    · exact absurd rfl h2
    · exact absurd rfl h2

theorem createAddress_unknown_customer_is_fatal_witness :
    (∀ r ∈ adaDB.customers, PathParam.uuid ⟨8⟩ ≠ .uuid r.id) ∧
    ∃ e, createAddress adaDB (.uuid ⟨8⟩) ⟨21⟩ (.object homeFields) = (.fatal e, adaDB) :=
  ⟨by decide, createAddress_unknown_customer_is_fatal adaDB (.uuid ⟨8⟩) ⟨21⟩ homeFields
    (by decide)⟩

/-! ## Listing after creating -/

/-- Appending one by one to a non-nil slice. -/
theorem Slice.foldl_append_elems {α : Type} (xs ys : List α) :
    xs.foldl Slice.append (.elems ys) = .elems (ys ++ xs) := by
  induction xs generalizing ys with
  | nil => simp
  | cons x xs ih => simp [Slice.append, ih]

/-- Appending at least one element to the `nil` slice gives a non-nil slice. -/
theorem Slice.foldl_append_nil {α : Type} (xs : List α) (h : xs ≠ []) :
    xs.foldl Slice.append .nil = .elems xs := by
  cases xs with
  | nil => exact absurd rfl h
  | cons x xs => simp [Slice.append, Slice.foldl_append_elems]

/-- The scan loop over rows that all scan appends their values in order. -/
theorem scanRows_ok {ρ α : Type} (scan : ρ → Except Failure α) (g : ρ → α) (rows : List ρ)
    (acc : Slice α) (h : ∀ r ∈ rows, scan r = .ok (g r)) :
    scanRows scan rows acc = .ok ((rows.map g).foldl Slice.append acc) := by
  induction rows generalizing acc with
  | nil => rfl
  | cons r rs ih =>
    have hr : scan r = .ok (g r) := h r (List.mem_cons_self r rs)
    simp only [scanRows, hr, List.map_cons, List.foldl_cons]
    exact ih _ (fun x hx => h x (List.mem_cons_of_mem r hx))

/-- A customer row without `NULL` scans. -/
theorem scanCustomer_of_not_null (r : CustomerRow) (hl : r.lname ≠ none) (he : r.email ≠ none) :
    scanCustomer r = .ok (customerOfRow r) := by
  obtain ⟨id, fn, ln, em⟩ := r
  cases ln with
  | none => exact absurd rfl hl
  | some l =>
    cases em with
    | none => exact absurd rfl he
    | some e => rfl

/-- A run of successful creations appends the rows of the requests, in order. -/
theorem createCustomers_some {db0 db1 : DB} {reqs : List (UUID × CustomerFields)}
    (h : createCustomers db0 reqs = some db1) :
    db1 = { db0 with customers :=
      db0.customers ++ reqs.map (fun p => customerRowOf p.1 p.2) } := by
  induction reqs generalizing db0 with
  | nil =>
    simp only [createCustomers, Option.some.injEq] at h
    simp [← h]
  | cons p rest ih =>
    obtain ⟨u, f⟩ := p
    simp only [createCustomers] at h
    split at h
    · rename_i s d db2 hc
      obtain ⟨f2, hf2, -, -, hdb2⟩ := createCustomer_written hc
      injection hf2 with hf2
      subst hf2
      have := ih h
      rw [this, hdb2]
      simp
    · simp at h

/-- C8 as stated fails: a store may hold a customer whose `lname` and `email` are `NULL`.
After one successful creation on such a store, `getCustomers` scans that row into Go
strings, fails, and ends the process without writing a list. -/
theorem getCustomers_after_create_null_row :
    createCustomers anonDB [(⟨7⟩, adaFields)] =
      some ⟨[⟨⟨3⟩, "Anon", none, none⟩,
             ⟨⟨7⟩, "Ada", some "Lovelace", some "ada@example.com"⟩], []⟩ ∧
    ¬ ∃ s d, (getCustomers ⟨[⟨⟨3⟩, "Anon", none, none⟩,
             ⟨⟨7⟩, "Ada", some "Lovelace", some "ada@example.com"⟩], []⟩).1 = .written s d := by
  refine ⟨rfl, ?_⟩
  rintro ⟨s, d, h⟩
  change Outcome.fatal _ = _ at h
  cases h

/-- C8, amended: for every initial database state whose customer rows hold no `NULL` in
`lname` or `email`, and every sequence of N `createCustomer` calls that all succeed (with
generated uuids u1..uN), where N is at least 1 or the initial table is not empty, a
subsequent `getCustomers` answers 200 with an array of length at least N that contains, for
each i, the entry with id ui and the fname, lname and email of the i-th request; every row
present before the sequence is still listed. -/
theorem getCustomers_after_creates (db0 db1 : DB) (reqs : List (UUID × CustomerFields))
    (hnull : ∀ r ∈ db0.customers, r.lname ≠ none ∧ r.email ≠ none)
    (hne : reqs ≠ [] ∨ db0.customers ≠ [])
    (hrun : createCustomers db0 reqs = some db1) :
    ∃ cs : List Customer,
      getCustomers db1 = (.written 200 (.array (cs.map encodeCustomer)), db1) ∧
      reqs.length ≤ cs.length ∧
      (∀ p ∈ reqs,
        (⟨p.1, p.2.fname.getD "", p.2.lname.getD "", p.2.email.getD ""⟩ : Customer) ∈ cs) ∧
      (∀ r ∈ db0.customers, ∃ c ∈ cs, scanCustomer r = .ok c) := by
  have hdb := createCustomers_some hrun
  have hrows : db1.customers = db0.customers ++ reqs.map (fun p => customerRowOf p.1 p.2) := by
    rw [hdb]
  have hscan : ∀ r ∈ db1.customers, scanCustomer r = .ok (customerOfRow r) := by
    intro r hr
    rw [hrows, List.mem_append] at hr
    rcases hr with hr | hr
    · exact scanCustomer_of_not_null r (hnull r hr).1 (hnull r hr).2
    · obtain ⟨p, -, rfl⟩ := List.mem_map.mp hr
      rfl
  have hnonempty : db1.customers.map customerOfRow ≠ [] := by
    rw [hrows]
    rcases hne with h | h
    · cases reqs with
      | nil => exact absurd rfl h
      | cons p rest => simp
    · cases hc : db0.customers with
      | nil => exact absurd hc h
      | cons r rs => simp
  refine ⟨db1.customers.map customerOfRow, ?_, ?_, ?_, ?_⟩
  · simp only [getCustomers, scanRows_ok scanCustomer customerOfRow db1.customers Slice.nil hscan,
      Slice.foldl_append_nil _ hnonempty, encodeSlice]
  · simp [hrows]
  · intro p hp
    rw [hrows, List.map_append, List.mem_append]
    right
    rw [List.map_map]
    exact List.mem_map.mpr ⟨p, hp, rfl⟩
  · intro r hr
    refine ⟨customerOfRow r, ?_, scanCustomer_of_not_null r (hnull r hr).1 (hnull r hr).2⟩
    rw [hrows, List.map_append, List.mem_append]
    left
    exact List.mem_map.mpr ⟨r, hr, rfl⟩

theorem getCustomers_after_creates_witness :
    (∀ r ∈ adaDB.customers, r.lname ≠ none ∧ r.email ≠ none) ∧
    createCustomers adaDB [(⟨8⟩, graceFields)] = some adaGraceDB ∧
    ∃ cs : List Customer,
      getCustomers adaGraceDB = (.written 200 (.array (cs.map encodeCustomer)), adaGraceDB) ∧
      [((⟨8⟩ : UUID), graceFields)].length ≤ cs.length ∧
      (∀ p ∈ [((⟨8⟩ : UUID), graceFields)],
        (⟨p.1, p.2.fname.getD "", p.2.lname.getD "", p.2.email.getD ""⟩ : Customer) ∈ cs) ∧
      (∀ r ∈ adaDB.customers, ∃ c ∈ cs, scanCustomer r = .ok c) :=
  ⟨by decide, rfl,
    getCustomers_after_creates adaDB adaGraceDB [(⟨8⟩, graceFields)] (by decide)
      (Or.inl (by decide)) rfl⟩

/-! ## The row persisted, and what else changes -/

/-- C9: the row persisted on success carries the generated uuid and never the client's.
For every database state, generated uuid `u` and well-formed body: a successful
`createCustomer` leaves the previous `customers` table plus exactly the row
`(u, fname, lname, email)` of the body; a successful `createAddress` leaves the previous
`addresses` table plus exactly one row, with id `u`, the path's customer as `customer_id`
and the body's other members; and for two bodies that differ only in their `id` member the
handler succeeds on both or on neither and leaves the same database. -/
theorem creation_persists_generated_id (db : DB) (u : UUID) :
    (∀ f s d db1, createCustomer db u (.object f) = (.written s d, db1) →
      db1 = { db with customers := db.customers ++
        [⟨u, f.fname.getD "", some (f.lname.getD ""), some (f.email.getD "")⟩] }) ∧
    (∀ p f s d db1, createAddress db p u (.object f) = (.written s d, db1) →
      ∃ cid, p = .uuid cid ∧
        db1 = { db with addresses := db.addresses ++
          [⟨u, some cid, some (f.nickname.getD ""), some (f.street1.getD ""),
            some (f.street2.getD ""), some (f.city.getD ""), some (f.state.getD ""),
            some (f.zipcode.getD "")⟩] }) ∧
    (∀ f g : CustomerFields, { f with id := none } = { g with id := none } →
      (createCustomer db u (.object f)).2 = (createCustomer db u (.object g)).2 ∧
      (createCustomer db u (.object f)).1.isWritten =
        (createCustomer db u (.object g)).1.isWritten) ∧
    (∀ p, ∀ f g : AddressFields, { f with id := none } = { g with id := none } →
      (createAddress db p u (.object f)).2 = (createAddress db p u (.object g)).2 ∧
      (createAddress db p u (.object f)).1.isWritten =
        (createAddress db p u (.object g)).1.isWritten) := by
  refine ⟨?_, ?_, ?_, ?_⟩
  · intro f s d db1 h
    obtain ⟨f2, hf2, -, -, hdb⟩ := createCustomer_written h
    injection hf2 with hf2
    subst hf2
    exact hdb
  · intro p f s d db1 h
    obtain ⟨f2, cid, hf2, hp, -, -, hdb⟩ := createAddress_written h
    injection hf2 with hf2
    subst hf2
    exact ⟨cid, hp, hdb⟩
  · intro f g hfg
    obtain ⟨fi, ffn, fln, fem⟩ := f
    obtain ⟨gi, gfn, gln, gem⟩ := g
    simp only [CustomerFields.mk.injEq, true_and] at hfg
    obtain ⟨h1, h2, h3⟩ := hfg
    subst h1 h2 h3
    simp only [createCustomer, decodeCustomer, insertCustomer]
    split_ifs <;> exact ⟨rfl, rfl⟩
  · intro p f g hfg
    obtain ⟨fi, fc, fn, f1, f2, fci, fst, fz⟩ := f
    obtain ⟨gi, gc, gn, g1, g2, gci, gst, gz⟩ := g
    simp only [AddressFields.mk.injEq, true_and] at hfg
    obtain ⟨h0, h1, h2, h3, h4, h5, h6⟩ := hfg
    subst h0 h1 h2 h3 h4 h5 h6
    cases p with
    | malformed t => exact ⟨rfl, rfl⟩
    | uuid cid =>
      simp only [createAddress, decodeAddress, insertAddress]
      split_ifs <;> exact ⟨rfl, rfl⟩

theorem creation_persists_generated_id_witness :
    adaGraceDB = { adaDB with customers := adaDB.customers ++
      [⟨⟨8⟩, "Grace", some "Hopper", some "grace@example.com"⟩] } ∧
    (∃ cid, PathParam.uuid ⟨7⟩ = .uuid cid ∧
      adaHomeDB = { adaDB with addresses := adaDB.addresses ++
        [⟨⟨21⟩, some cid, some "home", some "12 St James Sq", some "", some "London", some "",
          some "SW1Y"⟩] }) ∧
    (createCustomer adaDB ⟨8⟩ (.object graceFields)).2 =
      (createCustomer adaDB ⟨8⟩ (.object { graceFields with id := none })).2 ∧
    (createAddress adaDB (.uuid ⟨7⟩) ⟨21⟩ (.object homeFields)).2 =
      (createAddress adaDB (.uuid ⟨7⟩) ⟨21⟩ (.object { homeFields with id := some ⟨5⟩ })).2 :=
  ⟨(creation_persists_generated_id adaDB ⟨8⟩).1 graceFields 200
      (.object (encodeCustomer ⟨⟨1⟩, "Grace", "Hopper", "grace@example.com"⟩)) adaGraceDB rfl,
   (creation_persists_generated_id adaDB ⟨21⟩).2.1 (.uuid ⟨7⟩) homeFields 200
      (.object (encodeAddress
        ⟨UUID.zero, UUID.zero, "home", "12 St James Sq", "", "London", "", "SW1Y"⟩))
      adaHomeDB rfl,
   ((creation_persists_generated_id adaDB ⟨8⟩).2.2.1 graceFields
      { graceFields with id := none } rfl).1,
   ((creation_persists_generated_id adaDB ⟨21⟩).2.2.2 (.uuid ⟨7⟩) homeFields
      { homeFields with id := some ⟨5⟩ } rfl).1⟩

/-- C10: effects of the handlers on the database.  For every state and request,
`getCustomers`, `getCustomerByID` and `getAddresses` leave both tables unchanged, whether
they answer or fail; a successful `createCustomer` appends one row to `customers` and
leaves `addresses` and the rows already in `customers` unchanged; a successful
`createAddress` appends one row to `addresses` and leaves `customers` and the rows already
in `addresses` unchanged. -/
theorem handlers_frame (db : DB) :
    (getCustomers db).2 = db ∧
    (∀ id, (getCustomerByID db id).2 = db) ∧
    (∀ customer_id, (getAddresses db customer_id).2 = db) ∧
    (∀ u body s d db1, createCustomer db u body = (.written s d, db1) →
      db1.addresses = db.addresses ∧ ∃ row, db1.customers = db.customers ++ [row]) ∧
    (∀ customer_id u body s d db1, createAddress db customer_id u body = (.written s d, db1) →
      db1.customers = db.customers ∧ ∃ row, db1.addresses = db.addresses ++ [row]) := by
  refine ⟨?_, ?_, ?_, ?_, ?_⟩
  · unfold getCustomers
    split <;> rfl
  · intro id
    unfold getCustomerByID
    split
    · rfl
    · split
      · rfl
      · split <;> rfl
  · intro cid
    unfold getAddresses
    split
    · rfl
    · split <;> rfl
  · intro u body s d db1 h
    obtain ⟨f, -, -, -, hdb⟩ := createCustomer_written h
    subst hdb
    exact ⟨rfl, _, rfl⟩
  · intro p u body s d db1 h
    obtain ⟨f, cid, -, -, -, -, hdb⟩ := createAddress_written h
    subst hdb
    exact ⟨rfl, _, rfl⟩

theorem handlers_frame_witness :
    (getCustomers anonDB).2 = anonDB ∧
    (getCustomerByID adaDB (.uuid ⟨9⟩)).2 = adaDB ∧
    (getAddresses adaHomeDB (.uuid ⟨7⟩)).2 = adaHomeDB ∧
    (adaGraceDB.addresses = adaDB.addresses ∧
      ∃ row, adaGraceDB.customers = adaDB.customers ++ [row]) ∧
    (adaHomeDB.customers = adaDB.customers ∧
      ∃ row, adaHomeDB.addresses = adaDB.addresses ++ [row]) :=
  ⟨(handlers_frame anonDB).1,
   (handlers_frame adaDB).2.1 (.uuid ⟨9⟩),
   (handlers_frame adaHomeDB).2.2.1 (.uuid ⟨7⟩),
   (handlers_frame adaDB).2.2.2.1 ⟨8⟩ (.object graceFields) 200
      (.object (encodeCustomer ⟨⟨1⟩, "Grace", "Hopper", "grace@example.com"⟩)) adaGraceDB rfl,
   (handlers_frame adaDB).2.2.2.2 (.uuid ⟨7⟩) ⟨21⟩ (.object homeFields) 200
      (.object (encodeAddress
        ⟨UUID.zero, UUID.zero, "home", "12 St James Sq", "", "London", "", "SW1Y"⟩))
      adaHomeDB rfl⟩

end Soltis
